import Mathlib

/-!
Verification development for the vedro test-scenario orchestration kernel.

The repository ships the event-module source (`vedro/events/__init__.py`)
together with the test suites for the core components (Dispatcher, Report,
Runner, Lifecycle, the Deferrer plugin and the Rich reporter).  The component
implementations themselves are not part of the source tree, so they are
modelled here from the specification (each such definition carries a
`Modelled from the spec:` doc comment); the event-module export list is
embedded verbatim from the source.
-/

namespace Vedro

/-- The lifecycle moments the specification names (§4.2, §6): each state ends
by firing the correspondingly named event. -/
inductive EventKind where
  | init
  | argParse
  | argParsed
  | configLoaded
  | startup
  | scenarioRun
  | scenarioPassed
  | scenarioFailed
  | scenarioSkipped
  | cleanup
deriving DecidableEq, Repr

/-- The names exported by `src/vedro/events/__init__.py`, in source order:
one `from .x import Y` line per entry. -/
def vedroEventsExports : List String :=
  [ "Event"
  , "InitEvent"
  , "ArgParseEvent"
  , "SetupEvent"
  , "ConfigLoadEvent"
  , "ScenarioLoadEvent"
  , "ScenarioRunEvent"
  , "ScenarioPassEvent"
  , "ScenarioFailEvent"
  , "ScenarioSkipEvent"
  , "CleanupEvent"
  ]

/-- The event-class names the repository's own tests import from
`vedro.events` (union over `tests/core/test_lifecycle.py`,
`tests/plugins/deferrer/test_deferrer_plugin.py`,
`tests/plugins/repeater/_utils.py`,
`tests/plugins/director/rich/test_rich_reporter.py`). -/
def testsImportedEventNames : List String :=
  [ "ArgParseEvent"
  , "ArgParsedEvent"
  , "CleanupEvent"
  , "ConfigLoadedEvent"
  , "ScenarioFailedEvent"
  , "ScenarioPassedEvent"
  , "ScenarioRunEvent"
  , "ScenarioSkippedEvent"
  , "StartupEvent"
  ]

/-- The event kinds the specification assigns (§6, "Event kinds and
payloads"). -/
def specEventKinds : List String :=
  [ "Init"
  , "ArgParse"
  , "ArgParsed"
  , "ConfigLoaded"
  , "Startup"
  , "ScenarioRun"
  , "ScenarioPass"
  , "ScenarioFail"
  , "ScenarioSkip"
  , "Cleanup"
  ]

/-! ## Event dispatcher -/

/-- Modelled from the spec: the Dispatcher's registered handler
(`vedro.core.Dispatcher` is not under `src/`).  A handler is registered for
one event kind and, when invoked on an event payload, either completes
normally or raises (`Except.error`).  `id` identifies the handler in call
traces. -/
structure Handler (E : Type) (Err : Type) where
  id : Nat
  kind : EventKind
  run : E → Except Err Unit

/-- Modelled from the spec: the Dispatcher's registry — an ordered list of
handlers, built at subscription time (§4.1, §9 "per-kind ordered handler list
built at subscription time"). -/
structure Dispatcher (E : Type) (Err : Type) where
  registry : List (Handler E Err)

/-- Modelled from the spec: `subscribe` registers a handler in call order —
it appends to the registry (§4.1). -/
def Dispatcher.subscribe (d : Dispatcher E Err) (h : Handler E Err) : Dispatcher E Err :=
  { registry := d.registry ++ [h] }

/-- Modelled from the spec: the loop inside `fire` — invoke each handler in
list order, awaiting each to completion before invoking the next; if a
handler raises, stop immediately and surface the exception (§4.1).  Returns
the ids of the handlers that ran, in order, together with the raised
exception if any. -/
def fireLoop (hs : List (Handler E Err)) (ev : E) : List Nat × Option Err :=
  match hs with
  | [] => ([], none)
  | h :: rest =>
    match h.run ev with
    | Except.ok _ =>
      let (trace, err) := fireLoop rest ev
      (h.id :: trace, err)
    | Except.error e => ([h.id], some e)

/-- Modelled from the spec: `fire(event)` invokes, for the event's concrete
kind, every registered handler in subscription order (§4.1). -/
def Dispatcher.fire (d : Dispatcher E Err) (k : EventKind) (ev : E) : List Nat × Option Err :=
  fireLoop (d.registry.filter (fun h => h.kind = k)) ev

/-! ## Result model and Report -/

/-- Scenario status (§3): pending, passed, failed or skipped. -/
inductive ScenarioStatus where
  | pending
  | passed
  | failed
  | skipped
deriving DecidableEq, Repr

/-- Modelled from the spec: the part of `ScenarioResult` the Report reads
(`vedro.core.ScenarioResult` is not under `src/`): terminal status and the
started/ended timestamps (§3).  Timestamps are optional — a skipped result
never acquires them. -/
structure ScenarioResult where
  status : ScenarioStatus
  startedAt : Option ℚ
  endedAt : Option ℚ
deriving DecidableEq, Repr

/-- Earliest of two optional timestamps (`none` means "not yet set"). -/
def optMin : Option ℚ → Option ℚ → Option ℚ
  | none, b => b
  | some a, none => some a
  | some a, some b => some (min a b)

/-- Latest of two optional timestamps (`none` means "not yet set"). -/
def optMax : Option ℚ → Option ℚ → Option ℚ
  | none, b => b
  | some a, none => some a
  | some a, some b => some (max a b)

/-- Modelled from the spec: the `Report` (`vedro.core.Report` is not under
`src/`) — ordered sequence of ScenarioResult, monotonically updated counters
total/passed/failed/skipped, aggregate `startedAt` (earliest) and `endedAt`
(latest) across contained results (§3, §4.6). -/
structure Report where
  results : List ScenarioResult
  total : Nat
  passed : Nat
  failed : Nat
  skipped : Nat
  startedAt : Option ℚ
  endedAt : Option ℚ
deriving DecidableEq, Repr

/-- The freshly constructed, empty Report. -/
def Report.empty : Report :=
  { results := [], total := 0, passed := 0, failed := 0, skipped := 0
  , startedAt := none, endedAt := none }

/-- Modelled from the spec: `add_result(ScenarioResult)` appends to the
ordered sequence and updates counters by the result's terminal status —
exactly one of passed/failed/skipped increments, plus total (§4.6) — and
widens the aggregate timing span to cover the result (§3). -/
def Report.addResult (r : Report) (sr : ScenarioResult) : Report :=
  { results := r.results ++ [sr]
  , total := r.total + 1
  , passed := r.passed + (if sr.status = ScenarioStatus.passed then 1 else 0)
  , failed := r.failed + (if sr.status = ScenarioStatus.failed then 1 else 0)
  , skipped := r.skipped + (if sr.status = ScenarioStatus.skipped then 1 else 0)
  , startedAt := optMin r.startedAt sr.startedAt
  , endedAt := optMax r.endedAt sr.endedAt }

/-- Adding a whole sequence of results, first to last. -/
def Report.addResults (r : Report) (rs : List ScenarioResult) : Report :=
  rs.foldl Report.addResult r

/-- Modelled from the spec: the Report's presented duration — earliest
`started_at` to latest `ended_at` across all contained results (§4.6); zero
when the span is absent. -/
def Report.elapsed (r : Report) : ℚ :=
  match r.startedAt, r.endedAt with
  | some s, some e => e - s
  | _, _ => 0

/-- Render a rational to two decimal places (the reporter's `{:.2f}`
formatting, rounding to the nearest hundredth). -/
def twoDecimals (q : ℚ) : String :=
  let c : ℤ := round (q * 100)
  let whole : ℤ := c / 100
  let frac : ℕ := (c % 100).toNat
  toString whole ++ "." ++ (if frac < 10 then "0" ++ toString frac else toString frac)

/-- The duration text the rich reporter presents for a Report. -/
def Report.elapsedText (r : Report) : String :=
  twoDecimals r.elapsed ++ "s"

/-! ## Deferred-cleanup stack -/

/-- Modelled from the spec: a `DeferredEntry` — a callable plus its bound
positional and keyword arguments (§3).  `fnId` identifies the callable; an
invocation is recorded as the whole entry, so every recorded call carries the
originally bound arguments. -/
structure DeferredEntry where
  fnId : Nat
  args : List String
  kwargs : List (String × String)
deriving DecidableEq, Repr

/-- Modelled from the spec: the Deferrer plugin's flush loop
(`vedro.plugins.deferrer` is not under `src/`) — while the queue is
non-empty, pop the most recently registered entry (the right end) and invoke
it, awaiting a suspension-capable callable in place before popping the next,
until the queue is drained (§4.5).  Returns the calls in invocation order
and the queue left after the loop. -/
def flushQueue (q : List DeferredEntry) : List DeferredEntry × List DeferredEntry :=
  match q with
  | [] => ([], [])
  | a :: as =>
    let e := (a :: as).getLast (List.cons_ne_nil a as)
    let rest := (a :: as).dropLast
    let (calls, final) := flushQueue rest
    (e :: calls, final)
termination_by q.length
decreasing_by simp [List.length_dropLast]

/-- Modelled from the spec: the Deferrer plugin's event handler — on
ScenarioRun it clears the queue without invoking anything (the stack is
"cleared at the start of each scenario's run", §4.5); on ScenarioPassed or
ScenarioFailed it flushes; other events leave the queue untouched.  Returns
the calls made and the new queue. -/
def deferrerHandle (q : List DeferredEntry) (k : EventKind) :
    List DeferredEntry × List DeferredEntry :=
  match k with
  | EventKind.scenarioRun => ([], [])
  | EventKind.scenarioPassed => flushQueue q
  | EventKind.scenarioFailed => flushQueue q
  | _ => ([], q)

/-! ## Runner -/

/-- Modelled from the spec: a `VirtualStep` — a name and a callable body;
`body` is the outcome of invoking it: normal completion or a raised
exception (§3). -/
structure VirtualStep where
  name : String
  body : Except String Unit

/-- Modelled from the spec: a `VirtualScenario` — ordered steps and the
optional skip flag (§3). -/
structure VirtualScenario where
  skipped : Bool
  steps : List VirtualStep

/-- Step status (§3): pending, passed or failed. -/
inductive StepStatus where
  | pending
  | passed
  | failed
deriving DecidableEq, Repr

/-- Modelled from the spec: a `StepResult` — step name, status and the
captured exception info of a failed step (§3). -/
structure StepResult where
  stepName : String
  status : StepStatus
  excInfo : Option String
deriving DecidableEq, Repr

/-- Modelled from the spec: the Runner's step loop — execute each step in
declared order; on normal completion mark it passed and continue; on a
raised condition capture the exception into a failed StepResult and stop
(fail-fast within a scenario, §4.4).  Returns the StepResults in execution
order and whether some step failed. -/
def runSteps : List VirtualStep → List StepResult × Bool
  | [] => ([], false)
  | s :: rest =>
    match s.body with
    | Except.ok _ =>
      let (rs, failedFlag) := runSteps rest
      ({ stepName := s.name, status := StepStatus.passed, excInfo := none } :: rs, failedFlag)
    | Except.error e =>
      ([{ stepName := s.name, status := StepStatus.failed, excInfo := some e }], true)

/-- What one `run(unit)` produced: the scenario status, the StepResults, the
events fired by the Runner in firing order, and the names of the step bodies
that were actually invoked. -/
structure RunOutcome where
  status : ScenarioStatus
  stepResults : List StepResult
  events : List EventKind
  executed : List String
deriving DecidableEq, Repr

/-- Modelled from the spec: `run(unit)` — if the unit's scenario is marked
skipped, produce a ScenarioResult with status skipped and no StepResults,
firing only ScenarioRun then ScenarioSkip, never running the body; otherwise
fire ScenarioRun, execute the steps fail-fast, set the status per the §3
invariant and fire ScenarioPass or ScenarioFail accordingly (§4.4). -/
def runScenario (sc : VirtualScenario) : RunOutcome :=
  if sc.skipped then
    { status := ScenarioStatus.skipped
    , stepResults := []
    , events := [EventKind.scenarioRun, EventKind.scenarioSkipped]
    , executed := [] }
  else
    let (stepResults, anyFailed) := runSteps sc.steps
    { status :=
        if anyFailed then ScenarioStatus.failed
        else if stepResults = [] then ScenarioStatus.pending
        else ScenarioStatus.passed
    , stepResults := stepResults
    , events := [EventKind.scenarioRun,
        if anyFailed then EventKind.scenarioFailed else EventKind.scenarioPassed]
    , executed := stepResults.map StepResult.stepName }

/-- The three terminal scenario events. -/
def isTerminalEvent (k : EventKind) : Bool :=
  k = EventKind.scenarioPassed || k = EventKind.scenarioFailed
    || k = EventKind.scenarioSkipped

/-! ## Lifecycle -/

/-- What a `Lifecycle.start()` run did to its collaborators: the paths the
discoverer was invoked with, how many times the runner ran, and the events
fired, in order. -/
structure LifecycleLog where
  discoverCalls : List String
  runnerCalls : Nat
  fired : List EventKind
deriving DecidableEq, Repr

/-- The log before `start()` begins. -/
def LifecycleLog.empty : LifecycleLog :=
  { discoverCalls := [], runnerCalls := 0, fired := [] }

/-- Record an event being fired through the dispatcher. -/
def fireEvent (log : LifecycleLog) (k : EventKind) : LifecycleLog :=
  { log with fired := log.fired ++ [k] }

/-- Invoke the discoverer collaborator on a path, recording the call. -/
def callDiscoverer (log : LifecycleLog) (discover : String → List VirtualScenario)
    (path : String) : LifecycleLog × List VirtualScenario :=
  ({ log with discoverCalls := log.discoverCalls ++ [path] }, discover path)

/-- Invoke the runner collaborator on the scheduled scenarios, recording the
call. -/
def callRunner (log : LifecycleLog) (run : List VirtualScenario → Report)
    (scenarios : List VirtualScenario) : LifecycleLog × Report :=
  ({ log with runnerCalls := log.runnerCalls + 1 }, run scenarios)

/-- Modelled from the spec: `Lifecycle.start()` (`vedro.core.Lifecycle` is
not under `src/`) — fire Init, ArgParse, ArgParsed and ConfigLoaded in
order, obtain the scenarios from the discoverer with the scenarios path,
fire Startup with the populated scheduler, delegate the per-scenario loop to
the runner, fire Cleanup with the final Report, and return that Report
(§4.2, §6). -/
def lifecycleStart (discover : String → List VirtualScenario)
    (run : List VirtualScenario → Report) : LifecycleLog × Report :=
  let log0 := LifecycleLog.empty
  let log1 := fireEvent log0 EventKind.init
  let log2 := fireEvent log1 EventKind.argParse
  let log3 := fireEvent log2 EventKind.argParsed
  let log4 := fireEvent log3 EventKind.configLoaded
  let (log5, scenarios) := callDiscoverer log4 discover "scenarios"
  let log6 := fireEvent log5 EventKind.startup
  let (log7, report) := callRunner log6 run scenarios
  let log8 := fireEvent log7 EventKind.cleanup
  (log8, report)

/-! ## Rich reporter -/

/-- Modelled from the spec: the rich reporter's ScenarioRun handler (the
reporter is a rendering collaborator; `vedro.plugins.director.RichReporter`
is not under `src/`).  It remembers the namespace of the previously run
scenario and prints the namespace header only when the new scenario's
namespace differs, as exercised by the repository's reporter tests.  Returns
the updated remembered namespace and the lines printed. -/
def reporterOnScenarioRun (prevNs : Option String) (ns : String) :
    Option String × List String :=
  if prevNs = some ns then (prevNs, [])
  else (some ns, ["* " ++ ns])

/-- A scope value as the reporter sees it: a JSON-serializable integer or
string, or a value JSON serialization rejects, of which only the repr text
matters. -/
inductive ScopeVal where
  | int (n : ℤ)
  | str (s : String)
  | unserializable (reprText : String)
deriving DecidableEq, Repr

/-- JSON serialization of a scope value: integers and strings serialize to
their JSON form; an unserializable value makes the serializer raise
(`none`). -/
def jsonDumps : ScopeVal → Option String
  | ScopeVal.int n => some (toString n)
  | ScopeVal.str s => some ("\"" ++ s ++ "\"")
  | ScopeVal.unserializable _ => none

/-- The repr text of a scope value. -/
def scopeValRepr : ScopeVal → String
  | ScopeVal.int n => toString n
  | ScopeVal.str s => "'" ++ s ++ "'"
  | ScopeVal.unserializable r => r

/-- Modelled from the spec: the rich reporter's `_format_scope` — for each
scope entry in insertion order, yield the key and the value rendered by JSON
serialization, falling back to the value's repr when serialization raises,
as exercised by the repository's reporter tests. -/
def formatScope (scope : List (String × ScopeVal)) : List (String × String) :=
  scope.map (fun kv =>
    (kv.1,
      match jsonDumps kv.2 with
      | some s => s
      | none => scopeValRepr kv.2))

/-! ## Theorems -/

/-- One unfolding step of the flush loop on a non-empty queue: pop the last
entry, recurse on the rest. -/
lemma flushQueue_ne_nil (q : List DeferredEntry) (h : q ≠ []) :
    flushQueue q =
      (q.getLast h :: (flushQueue q.dropLast).1, (flushQueue q.dropLast).2) := by
  cases q with
  | nil => exact absurd rfl h
  | cons a as => rw [flushQueue]

/-- The flush loop calls every entry in reverse-of-registration order and
drains the queue. -/
lemma flushQueue_eq (q : List DeferredEntry) : flushQueue q = (q.reverse, []) := by
  induction q using List.reverseRecOn with
  | nil => rw [flushQueue]; rfl
  | append_singleton xs x ih =>
    have hne : xs ++ [x] ≠ [] := by simp
    rw [flushQueue_ne_nil (xs ++ [x]) hne, List.dropLast_concat, ih]
    simp [List.getLast_concat]

/-- C1: for every sequence of deferred registrations, firing ScenarioPassed
or ScenarioFailed invokes the deferred callables in exact reverse order of
registration, each call carrying its originally bound positional and keyword
arguments (the call trace is the registration queue reversed, entries
intact, each entry awaited in place before the next is popped), and the
deferred queue is empty immediately after the flush. -/
theorem deferrer_flush_lifo (q : List DeferredEntry) :
    deferrerHandle q EventKind.scenarioPassed = (q.reverse, []) ∧
    deferrerHandle q EventKind.scenarioFailed = (q.reverse, []) := by
  constructor <;> simpa [deferrerHandle] using flushQueue_eq q

/-- C7: handling a ScenarioRun event clears the deferred queue — whatever
entries were left over beforehand, the queue is empty afterwards and none of
the leftover callables is invoked (empty call trace). -/
theorem deferrer_scenario_run_clears (q : List DeferredEntry) :
    deferrerHandle q EventKind.scenarioRun = ([], []) := rfl

/-- When every handler completes normally, the fire loop runs them all in
list order and surfaces no exception. -/
lemma fireLoop_all_ok {E Err : Type} (hs : List (Handler E Err)) (ev : E)
    (hok : ∀ h ∈ hs, h.run ev = Except.ok ()) :
    fireLoop hs ev = (hs.map Handler.id, none) := by
  induction hs with
  | nil => rfl
  | cons h rest ih =>
    have h1 : h.run ev = Except.ok () := hok h (by simp)
    have h2 := ih (fun x hx => hok x (by simp [hx]))
    simp [fireLoop, h1, h2]

/-- When the first raising handler sits after an all-ok prefix, the fire
loop runs the prefix in order, runs the raiser, surfaces its exception, and
never reaches the handlers behind it. -/
lemma fireLoop_abort {E Err : Type} (hs1 : List (Handler E Err)) (hbad : Handler E Err)
    (hs2 : List (Handler E Err)) (ev : E) (e : Err)
    (hok : ∀ h ∈ hs1, h.run ev = Except.ok ())
    (hb : hbad.run ev = Except.error e) :
    fireLoop (hs1 ++ hbad :: hs2) ev = (hs1.map Handler.id ++ [hbad.id], some e) := by
  induction hs1 with
  | nil => simp [fireLoop, hb]
  | cons h rest ih =>
    have h1 : h.run ev = Except.ok () := hok h (by simp)
    have h2 := ih (fun x hx => hok x (by simp [hx]))
    simp [fireLoop, h1, h2]

/-- C2: `fire` invokes the handlers registered for the event's kind in
subscription order, each completing before the next starts; when all
complete normally every one of them runs, in order, with no exception, and
when handler *i* is the first to raise, the trace stops at handler *i* —
no later handler for that event runs — and the exception surfaces to the
caller of `fire`. -/
theorem dispatcher_fire_order_abort {E Err : Type} (d : Dispatcher E Err)
    (k : EventKind) (ev : E) :
    ((∀ h ∈ d.registry.filter (fun h => h.kind = k), h.run ev = Except.ok ()) →
      d.fire k ev = ((d.registry.filter (fun h => h.kind = k)).map Handler.id, none)) ∧
    (∀ (hs1 : List (Handler E Err)) (hbad : Handler E Err) (hs2 : List (Handler E Err))
        (e : Err),
      d.registry.filter (fun h => h.kind = k) = hs1 ++ hbad :: hs2 →
      (∀ h ∈ hs1, h.run ev = Except.ok ()) →
      hbad.run ev = Except.error e →
      d.fire k ev = (hs1.map Handler.id ++ [hbad.id], some e)) := by
  constructor
  · intro hok
    exact fireLoop_all_ok _ ev hok
  · intro hs1 hbad hs2 e hsplit hok hb
    unfold Dispatcher.fire
    rw [hsplit]
    exact fireLoop_abort hs1 hbad hs2 ev e hok hb

/-- Concrete instance of C2: a dispatcher whose three handlers for
ScenarioRun are ok, raising, ok runs exactly the first two and surfaces the
exception; a dispatcher with two ok handlers runs both in order. -/
theorem dispatcher_fire_order_abort_witness :
    (Dispatcher.fire
        ⟨[⟨1, EventKind.scenarioRun, fun _ => Except.ok ()⟩,
          ⟨2, EventKind.scenarioRun, fun _ => Except.error "boom"⟩,
          ⟨3, EventKind.scenarioRun, fun _ => Except.ok ()⟩]⟩
        EventKind.scenarioRun () = ([1, 2], some "boom")) ∧
    (Dispatcher.fire
        ((⟨[]⟩ : Dispatcher Unit String).subscribe
          ⟨1, EventKind.scenarioRun, fun _ => Except.ok ()⟩)
        EventKind.scenarioRun () = ([1], none)) := by
  constructor
  · exact (dispatcher_fire_order_abort
      (⟨[⟨1, EventKind.scenarioRun, fun _ => Except.ok ()⟩,
         ⟨2, EventKind.scenarioRun, fun _ => Except.error "boom"⟩,
         ⟨3, EventKind.scenarioRun, fun _ => Except.ok ()⟩]⟩ : Dispatcher Unit String)
      EventKind.scenarioRun ()).2
      [⟨1, EventKind.scenarioRun, fun _ => Except.ok ()⟩]
      ⟨2, EventKind.scenarioRun, fun _ => Except.error "boom"⟩
      [⟨3, EventKind.scenarioRun, fun _ => Except.ok ()⟩]
      "boom" rfl (by intro h hh; simp at hh; subst hh; rfl) rfl
  · exact (dispatcher_fire_order_abort
      (Dispatcher.subscribe (⟨[]⟩ : Dispatcher Unit String)
        ⟨1, EventKind.scenarioRun, fun _ => Except.ok ()⟩)
      EventKind.scenarioRun ()).1
      (by intro h hh; simp [Dispatcher.subscribe] at hh; subst hh; rfl)

/-- Folding terminal results over `addResult` preserves the counter
equation. -/
lemma addResults_invariant (rs : List ScenarioResult) (r : Report)
    (hr : r.total = r.passed + r.failed + r.skipped)
    (hterm : ∀ sr ∈ rs, sr.status ≠ ScenarioStatus.pending) :
    (r.addResults rs).total =
      (r.addResults rs).passed + (r.addResults rs).failed + (r.addResults rs).skipped := by
  induction rs generalizing r with
  | nil => simpa [Report.addResults] using hr
  | cons sr rest ih =>
    have hsr : sr.status ≠ ScenarioStatus.pending := hterm sr (by simp)
    have hstep : (r.addResult sr).total =
        (r.addResult sr).passed + (r.addResult sr).failed + (r.addResult sr).skipped := by
      cases h : sr.status
      case pending => exact absurd h hsr
      all_goals simp [Report.addResult, h]; omega
    have : Report.addResults r (sr :: rest) = Report.addResults (r.addResult sr) rest := rfl
    rw [this]
    exact ih (r.addResult sr) hstep (fun x hx => hterm x (by simp [hx]))

/-- C3: after any sequence of `add_result` calls with terminal results, the
counters satisfy `total = passed + failed + skipped`; and each `add_result`
increments `total` and exactly the one of passed/failed/skipped matching the
added result's terminal status, leaving the other two unchanged. -/
theorem report_counters (rs : List ScenarioResult)
    (hterm : ∀ sr ∈ rs, sr.status ≠ ScenarioStatus.pending) :
    ((Report.empty.addResults rs).total =
      (Report.empty.addResults rs).passed + (Report.empty.addResults rs).failed +
        (Report.empty.addResults rs).skipped) ∧
    (∀ (r : Report) (sr : ScenarioResult),
      (r.addResult sr).total = r.total + 1 ∧
      (sr.status = ScenarioStatus.passed →
        (r.addResult sr).passed = r.passed + 1 ∧
        (r.addResult sr).failed = r.failed ∧ (r.addResult sr).skipped = r.skipped) ∧
      (sr.status = ScenarioStatus.failed →
        (r.addResult sr).failed = r.failed + 1 ∧
        (r.addResult sr).passed = r.passed ∧ (r.addResult sr).skipped = r.skipped) ∧
      (sr.status = ScenarioStatus.skipped →
        (r.addResult sr).skipped = r.skipped + 1 ∧
        (r.addResult sr).passed = r.passed ∧ (r.addResult sr).failed = r.failed)) := by
  constructor
  · exact addResults_invariant rs Report.empty rfl hterm
  · intro r sr
    refine ⟨rfl, ?_, ?_, ?_⟩ <;> intro h <;> simp [Report.addResult, h]

/-- Concrete instance of C3: adding a passed, a failed and a skipped result
to a fresh Report keeps `total = passed + failed + skipped`. -/
theorem report_counters_witness :
    ((Report.empty.addResults
        [⟨ScenarioStatus.passed, some 1, some 2⟩,
         ⟨ScenarioStatus.failed, some 2, some 3⟩,
         ⟨ScenarioStatus.skipped, none, none⟩]).total =
      (Report.empty.addResults
        [⟨ScenarioStatus.passed, some 1, some 2⟩,
         ⟨ScenarioStatus.failed, some 2, some 3⟩,
         ⟨ScenarioStatus.skipped, none, none⟩]).passed +
      (Report.empty.addResults
        [⟨ScenarioStatus.passed, some 1, some 2⟩,
         ⟨ScenarioStatus.failed, some 2, some 3⟩,
         ⟨ScenarioStatus.skipped, none, none⟩]).failed +
      (Report.empty.addResults
        [⟨ScenarioStatus.passed, some 1, some 2⟩,
         ⟨ScenarioStatus.failed, some 2, some 3⟩,
         ⟨ScenarioStatus.skipped, none, none⟩]).skipped) :=
  (report_counters
    [⟨ScenarioStatus.passed, some 1, some 2⟩,
     ⟨ScenarioStatus.failed, some 2, some 3⟩,
     ⟨ScenarioStatus.skipped, none, none⟩]
    (by intro sr hsr; fin_cases hsr <;> simp)).1

/-- C4: the Report's presented duration is the span from the earliest
`started_at` to the latest `ended_at` across its contained results, rendered
to two decimal places: two results spanning 1.0→2.0 and 2.0→3.0 give a
report spanning 1.0→3.0 presented as "2.00s", and a single result with
started_at = 3.145 and ended_at = 6.285 is presented as "3.14s". -/
theorem report_duration_presentation :
    (((Report.empty.addResult ⟨ScenarioStatus.passed, some 1, some 2⟩).addResult
        ⟨ScenarioStatus.passed, some 2, some 3⟩).startedAt = some 1) ∧
    (((Report.empty.addResult ⟨ScenarioStatus.passed, some 1, some 2⟩).addResult
        ⟨ScenarioStatus.passed, some 2, some 3⟩).endedAt = some 3) ∧
    (((Report.empty.addResult ⟨ScenarioStatus.passed, some 1, some 2⟩).addResult
        ⟨ScenarioStatus.passed, some 2, some 3⟩).elapsedText = "2.00s") ∧
    ((Report.empty.addResult
        ⟨ScenarioStatus.failed, some (629 / 200), some (1257 / 200)⟩).elapsedText
      = "3.14s") := by
  refine ⟨by decide, by decide, ?_, ?_⟩ <;>
    simp [Report.elapsedText, Report.elapsed, Report.addResult, Report.empty,
      optMin, optMax, twoDecimals] <;> norm_num [round_eq] <;> rfl

/-- C5: the event module's export list diverges from the kinds the spec
names.  The spec's kinds ArgParsed, ConfigLoaded and Startup — whose event
classes the repository's own tests import from `vedro.events` — are not
exported by `vedro/events/__init__.py`; the terminal-event class names the
tests use (ScenarioPassedEvent, ScenarioFailedEvent, ScenarioSkippedEvent)
are not exported either; and the module instead exports SetupEvent and
ScenarioLoadEvent, for which the spec names no kind. -/
theorem events_exports_divergence :
    ("ArgParsedEvent" ∈ testsImportedEventNames ∧
      "ArgParsedEvent" ∉ vedroEventsExports) ∧
    ("ConfigLoadedEvent" ∈ testsImportedEventNames ∧
      "ConfigLoadedEvent" ∉ vedroEventsExports) ∧
    ("StartupEvent" ∈ testsImportedEventNames ∧
      "StartupEvent" ∉ vedroEventsExports) ∧
    ("ScenarioPassedEvent" ∈ testsImportedEventNames ∧
      "ScenarioPassedEvent" ∉ vedroEventsExports) ∧
    ("ScenarioFailedEvent" ∈ testsImportedEventNames ∧
      "ScenarioFailedEvent" ∉ vedroEventsExports) ∧
    ("ScenarioSkippedEvent" ∈ testsImportedEventNames ∧
      "ScenarioSkippedEvent" ∉ vedroEventsExports) ∧
    ("ArgParsed" ∈ specEventKinds ∧ "ConfigLoaded" ∈ specEventKinds ∧
      "Startup" ∈ specEventKinds) ∧
    ("SetupEvent" ∈ vedroEventsExports ∧ "Setup" ∉ specEventKinds) ∧
    ("ScenarioLoadEvent" ∈ vedroEventsExports ∧ "ScenarioLoad" ∉ specEventKinds) := by
  decide

/-- C6: running a scenario marked skipped yields a result with status
skipped and zero StepResults, no step body is ever invoked, the only
terminal event fired is ScenarioSkip, and neither ScenarioPass nor
ScenarioFail is ever fired for it. -/
theorem runner_skip_behavior (sc : VirtualScenario) (h : sc.skipped = true) :
    (runScenario sc).status = ScenarioStatus.skipped ∧
    (runScenario sc).stepResults = [] ∧
    (runScenario sc).executed = [] ∧
    (runScenario sc).events.filter isTerminalEvent = [EventKind.scenarioSkipped] ∧
    EventKind.scenarioPassed ∉ (runScenario sc).events ∧
    EventKind.scenarioFailed ∉ (runScenario sc).events := by
  simp [runScenario, h, isTerminalEvent, List.filter]

/-- Concrete instance of C6: a skipped scenario that does have step bodies
still produces a skipped result with no StepResults, executes nothing, and
fires only ScenarioSkip as its terminal event. -/
theorem runner_skip_behavior_witness :
    (runScenario ⟨true, [⟨"step one", Except.ok ()⟩, ⟨"step two", Except.error "e"⟩]⟩).status
        = ScenarioStatus.skipped ∧
    (runScenario ⟨true, [⟨"step one", Except.ok ()⟩, ⟨"step two", Except.error "e"⟩]⟩).stepResults
        = [] ∧
    (runScenario ⟨true, [⟨"step one", Except.ok ()⟩, ⟨"step two", Except.error "e"⟩]⟩).executed
        = [] ∧
    (runScenario ⟨true, [⟨"step one", Except.ok ()⟩, ⟨"step two", Except.error "e"⟩]⟩).events.filter
        isTerminalEvent = [EventKind.scenarioSkipped] ∧
    EventKind.scenarioPassed ∉
      (runScenario ⟨true, [⟨"step one", Except.ok ()⟩, ⟨"step two", Except.error "e"⟩]⟩).events ∧
    EventKind.scenarioFailed ∉
      (runScenario ⟨true, [⟨"step one", Except.ok ()⟩, ⟨"step two", Except.error "e"⟩]⟩).events :=
  runner_skip_behavior ⟨true, [⟨"step one", Except.ok ()⟩, ⟨"step two", Except.error "e"⟩]⟩ rfl

/-- C8: for any discoverer and runner collaborators, `start()` invokes the
discoverer exactly once, with the scenarios path, invokes the runner exactly
once, returns the runner's Report as its result, and fires the lifecycle
events in order, ending with Cleanup. -/
theorem lifecycle_start_once (discover : String → List VirtualScenario)
    (run : List VirtualScenario → Report) :
    (lifecycleStart discover run).1.discoverCalls = ["scenarios"] ∧
    (lifecycleStart discover run).1.runnerCalls = 1 ∧
    (lifecycleStart discover run).2 = run (discover "scenarios") ∧
    (lifecycleStart discover run).1.fired =
      [EventKind.init, EventKind.argParse, EventKind.argParsed,
       EventKind.configLoaded, EventKind.startup, EventKind.cleanup] := by
  refine ⟨rfl, rfl, rfl, rfl⟩

/-- C9: the rich reporter prints the namespace header on ScenarioRun only
when the namespace differs from the previously run scenario's: after
handling a scenario in namespace `ns`, handling another ScenarioRun in `ns`
prints nothing, while handling one in a different namespace `ns2` prints the
new header; and the very first ScenarioRun prints its header. -/
theorem reporter_namespace_header (st : Option String) (ns ns2 : String)
    (hne : ns2 ≠ ns) :
    (reporterOnScenarioRun (reporterOnScenarioRun st ns).1 ns).2 = [] ∧
    (reporterOnScenarioRun (reporterOnScenarioRun st ns).1 ns2).2 = ["* " ++ ns2] ∧
    (reporterOnScenarioRun none ns).2 = ["* " ++ ns] := by
  have hfst : (reporterOnScenarioRun st ns).1 = some ns := by
    by_cases h : st = some ns <;> simp [reporterOnScenarioRun, h]
  refine ⟨?_, ?_, ?_⟩
  · rw [hfst]; simp [reporterOnScenarioRun]
  · rw [hfst]; simp [reporterOnScenarioRun, Ne.symm hne]
  · simp [reporterOnScenarioRun]

/-- Concrete instance of C9: two runs in `ns one` print the header once;
a following run in `ns two` prints the new header. -/
theorem reporter_namespace_header_witness :
    (reporterOnScenarioRun (reporterOnScenarioRun none "ns one").1 "ns one").2 = [] ∧
    (reporterOnScenarioRun (reporterOnScenarioRun none "ns one").1 "ns two").2
      = ["* " ++ "ns two"] ∧
    (reporterOnScenarioRun none "ns one").2 = ["* " ++ "ns one"] :=
  reporter_namespace_header none "ns one" "ns two" (by decide)

/-- C10: `_format_scope` yields one (key, rendered-value) pair per scope
entry in insertion order — the keys of the output are exactly the keys of
the scope — rendering serializable values in JSON form (the integer 1 as
"1", the string val as "val" in quotes) and falling back to the value's repr
for a value JSON serialization rejects; it is a total function (never
raises) and an empty scope yields no pairs. -/
theorem format_scope_rendering :
    formatScope [] = [] ∧
    (∀ scope : List (String × ScopeVal),
      (formatScope scope).map Prod.fst = scope.map Prod.fst) ∧
    formatScope [("key_int", ScopeVal.int 1), ("key_str", ScopeVal.str "val")] =
      [("key_int", "1"), ("key_str", "\"val\"")] ∧
    formatScope [("key_int", ScopeVal.int 1),
                 ("key_unserializable", ScopeVal.unserializable "sentinel.DEFAULT")] =
      [("key_int", "1"), ("key_unserializable", "sentinel.DEFAULT")] := by
  refine ⟨rfl, ?_, by decide, by decide⟩
  intro scope
  simp [formatScope]

end Vedro
